import Mathlib

/-!
Shallow embedding of `src/huginn_agent.py` (the Huginn file-watching agent).

The program has three effectful units that the claims are about:

* `send_email` (source lines 78-115): console fallback vs SMTP delivery;
* `run_task` (source lines 166-207): strip the task, invoke the agent,
  derive a subject, dispatch the answer via `send_email`;
* `TaskFileHandler.on_modified` (source lines 229-252): event filtering,
  1-second debounce, file read, hand-off to `run_task`.

External services (the SMTP transaction, the LangGraph agent invocation,
the filesystem read) are modelled as explicit outcome parameters, and each
function returns an explicit trace of the observable actions it performed
(console writes, network attempts, log lines, deliveries) together with an
optional uncaught Python exception, so that "returns normally" and "the
exception propagates" are both expressible.  Timestamps from
`time.monotonic()` are modelled as rationals.  Paths are modelled as the
already-resolved path strings that the Python code compares
(`Path(event.src_path).resolve() != TASKS_FILE`).
-/

/-- A Python exception value, split by the handler clauses that
`send_email` has: `smtplib.SMTPException`, `OSError`, and anything else
(which no clause in the source catches). -/
inductive PyExc where
  | smtpException (msg : String)
  | osError (msg : String)
  | otherExc (msg : String)
deriving DecidableEq

/-- The SMTP / delivery configuration read from the environment at startup
(source lines 67-72). -/
structure SmtpConfig where
  host : String
  port : Nat
  user : String
  password : String
  sender : String
  recipient : String
deriving DecidableEq

/-- One observable action of `send_email`: a `print` to stdout, a log
line, or the opening of an SMTP connection to (host, port). -/
inductive SinkAction where
  | consoleWrite (line : String)
  | logWarning (m : String)
  | logInfo (m : String)
  | logError (m : String)
  | netAttempt (host : String) (port : Nat)
deriving DecidableEq

/-- Outcome of the SMTP transaction body (the `with smtplib.SMTP` block,
source lines 105-110): success, or the exception it raised. -/
inductive NetOutcome where
  | ok
  | raises (e : PyExc)
deriving DecidableEq

/-- The `"=" * 60` separator used by the console fallback. -/
def sep60 : String := String.mk (List.replicate 60 '=')

/-- Embedding of `send_email(subject, body)` (source lines 78-115),
parameterised by the configuration and by the outcome of the SMTP
transaction.  Returns the list of observable actions performed, paired
with the exception that escaped the function, if any.  With an empty host
it prints the body (never touching the network); otherwise it attempts
the connection and catches exactly `smtplib.SMTPException` and `OSError`. -/
def send_email (cfg : SmtpConfig) (net : NetOutcome) (subject body : String) :
    List SinkAction × Option PyExc :=
  if cfg.host = "" then
    ([SinkAction.logWarning
        "SMTP_HOST is not set – skipping email and printing the answer instead.",
      SinkAction.consoleWrite ("\n" ++ sep60),
      SinkAction.consoleWrite "FINAL ANSWER",
      SinkAction.consoleWrite sep60,
      SinkAction.consoleWrite body,
      SinkAction.consoleWrite (sep60 ++ "\n")], none)
  else
    match net with
    | NetOutcome.ok =>
        ([SinkAction.netAttempt cfg.host cfg.port,
          SinkAction.logInfo ("Email sent successfully to " ++ cfg.recipient)], none)
    | NetOutcome.raises (PyExc.smtpException m) =>
        ([SinkAction.netAttempt cfg.host cfg.port,
          SinkAction.logError ("SMTP error while sending email: " ++ m)], none)
    | NetOutcome.raises (PyExc.osError m) =>
        ([SinkAction.netAttempt cfg.host cfg.port,
          SinkAction.logError ("Network error while sending email: " ++ m)], none)
    | NetOutcome.raises (PyExc.otherExc m) =>
        ([SinkAction.netAttempt cfg.host cfg.port], some (PyExc.otherExc m))

/-- Python `str.strip()` whitespace for the ASCII range: space, tab,
newline, carriage return, vertical tab, form feed. -/
def isPySpace (c : Char) : Bool :=
  c = ' ' || c = '\t' || c = '\n' || c = '\r' || c = '\x0b' || c = '\x0c'

/-- Python `str.strip()`: drop leading and trailing whitespace. -/
def pyStrip (s : String) : String :=
  String.mk (((s.toList.dropWhile isPySpace).reverse.dropWhile isPySpace).reverse)

/-- A message in the LangGraph result list (`result["messages"]`).  The
source reads `final_message.content` when the attribute exists and falls
back to `str(final_message)` otherwise (lines 194-198). -/
structure Msg where
  contentAttr : Option String
  strRepr : String
deriving DecidableEq

/-- `final_message.content if hasattr(final_message, "content") else
str(final_message)` (source lines 194-198). -/
def finalAnswerOf (m : Msg) : String :=
  match m.contentAttr with
  | some c => c
  | none => m.strRepr

/-- Outcome of `AGENT.invoke({"messages": [("user", task_text)]},
config={"recursion_limit": 30})` (source lines 181-186): either the
resulting message list, or the exception the agent raised (LangGraph
raises `GraphRecursionError` when the recursion limit of 30 is exceeded;
any model-service error also surfaces here). -/
inductive AgentOutcome where
  | ok (messages : List Msg)
  | raises (msg : String)
deriving DecidableEq

/-- Everything `run_task` observably did. `invoked` records whether
`AGENT.invoke` was called; `sends` records each (subject, body) pair
passed to `send_email`; `actions` records the sink actions performed;
`logs` the log lines of `run_task` itself; `raised` an exception escaping
`run_task`, if any. -/
structure RunTrace where
  invoked : Bool
  sends : List (String × String)
  actions : List SinkAction
  logs : List String
  raised : Option PyExc
deriving DecidableEq

/-- `task_text[:60] + ("…" if len(task_text) > 60 else "")` on the
already-stripped task text (source line 203). -/
def shortTask (stripped : String) : String :=
  String.mk (stripped.toList.take 60) ++
    (if 60 < stripped.toList.length then "…" else "")

/-- Embedding of `run_task(task_text)` (source lines 166-207),
parameterised by the delivery configuration, the SMTP outcome and the
agent outcome.  Strips the task; empty tasks are a no-op.  If the agent
raises, logs the error and returns (the `except Exception` clause, lines
187-189).  Otherwise takes the last message as the final answer, derives
the bounded subject, and calls `send_email`.  Reading `messages[-1]` from
an empty list would raise `IndexError` outside the `try`, which is
modelled as an uncaught exception. -/
def run_task (cfg : SmtpConfig) (net : NetOutcome) (agent : AgentOutcome)
    (task_text : String) : RunTrace :=
  let t := pyStrip task_text
  if t = "" then
    { invoked := false, sends := [], actions := [],
      logs := ["tasks.txt is empty – nothing to do."], raised := none }
  else
    match agent with
    | AgentOutcome.raises e =>
        { invoked := true, sends := [], actions := [],
          logs := ["Starting agent for task:\n  " ++ String.mk (t.toList.take 200),
                   "Agent raised an unexpected error: " ++ e],
          raised := none }
    | AgentOutcome.ok messages =>
        match messages.getLast? with
        | none =>
            { invoked := true, sends := [], actions := [],
              logs := ["Starting agent for task:\n  " ++ String.mk (t.toList.take 200)],
              raised := some (PyExc.otherExc "IndexError: list index out of range") }
        | some final_message =>
            let final_answer := finalAnswerOf final_message
            let subject := "[Huginn] " ++ shortTask t
            let sent := send_email cfg net subject final_answer
            { invoked := true,
              sends := [(subject, final_answer)],
              actions := sent.fst,
              logs := ["Starting agent for task:\n  " ++ String.mk (t.toList.take 200),
                       "Agent finished. Dispatching answer …"],
              raised := sent.snd }

/-- A watchdog filesystem event as seen by `on_modified`: the directory
flag and the resolved source path (the source compares
`Path(event.src_path).resolve()` with the resolved `TASKS_FILE`). -/
structure FsEvent where
  isDirectory : Bool
  srcPath : String
deriving DecidableEq

/-- The state of `TaskFileHandler`: the monotonic timestamp of the last
handled event (`self._last_modified`, initialised to `0.0`). -/
structure HandlerState where
  lastModified : ℚ
deriving DecidableEq

/-- Outcome of `TASKS_FILE.read_text()` at trigger time: the content, or
an `OSError`. -/
inductive ReadOutcome where
  | ok (content : String)
  | raises (msg : String)
deriving DecidableEq

/-- What one `on_modified` call observably did: whether it passed the
filters and the debounce (and hence updated the timestamp and attempted
the file read), and the content handed to `run_task`, if any. -/
structure TriggerOut where
  fired : Bool
  readAttempted : Bool
  ranTask : Option String
deriving DecidableEq

/-- The silent outcome: the handler returned before doing anything. -/
def noTrigger : TriggerOut :=
  { fired := false, readAttempted := false, ranTask := none }

/-- Embedding of `TaskFileHandler.on_modified(event)` (source lines
229-252), parameterised by the resolved watched path, the current
monotonic time and the file-read outcome.  Directory events and events
for other paths return immediately; an event within 1 second of the last
handled one is discarded; otherwise the timestamp is updated first, then
the file is read and the content handed to `run_task` (a failed read is
logged and skipped). -/
def on_modified (tasksFile : String) (s : HandlerState) (e : FsEvent)
    (now : ℚ) (readResult : ReadOutcome) : HandlerState × TriggerOut :=
  if e.isDirectory then
    (s, noTrigger)
  else if e.srcPath ≠ tasksFile then
    (s, noTrigger)
  else if now - s.lastModified < 1 then
    (s, noTrigger)
  else
    match readResult with
    | ReadOutcome.raises _ =>
        ({ lastModified := now },
         { fired := true, readAttempted := true, ranTask := none })
    | ReadOutcome.ok content =>
        ({ lastModified := now },
         { fired := true, readAttempted := true, ranTask := some content })

/-- Run `on_modified` over a sequence of (event, time, read outcome)
triples, collecting the outputs. -/
def processEvents (tasksFile : String) (s : HandlerState)
    (evs : List (FsEvent × ℚ × ReadOutcome)) : HandlerState × List TriggerOut :=
  match evs with
  | [] => (s, [])
  | (e, now, r) :: rest =>
      let step := on_modified tasksFile s e now r
      let further := processEvents tasksFile step.fst rest
      (further.fst, step.snd :: further.snd)

/-- Number of triggers emitted in a list of outputs. -/
def firedCount (outs : List TriggerOut) : Nat :=
  (outs.filter (fun o => o.fired)).length

/-- The content a successful read yields, `none` for a failed read. -/
def readContent : ReadOutcome → Option String
  | ReadOutcome.ok c => some c
  | ReadOutcome.raises _ => none

/-- Helper: any call within 1 second of the last handled event returns with
the state untouched and no trigger, whatever the event and read outcome. -/
theorem on_modified_within_window (tf : String) (s : HandlerState) (e : FsEvent)
    (now : ℚ) (r : ReadOutcome) (h : now - s.lastModified < 1) :
    on_modified tf s e now r = (s, noTrigger) := by
  simp only [on_modified, if_pos h, ite_self]

/-- Helper: a qualifying call at least 1 second after the last handled
event fires: the timestamp becomes `now`, the read is attempted, and the
content (if the read succeeds) is handed to `run_task`. -/
theorem on_modified_fires (tf : String) (s : HandlerState) (e : FsEvent)
    (now : ℚ) (r : ReadOutcome)
    (hd : e.isDirectory = false) (hp : e.srcPath = tf)
    (h : 1 ≤ now - s.lastModified) :
    on_modified tf s e now r =
      ({ lastModified := now },
       { fired := true, readAttempted := true, ranTask := readContent r }) := by
  unfold on_modified
  rw [if_neg (by simp [hd]), if_neg (by simp [hp]), if_neg (by linarith)]
  cases r <;> rfl

/-- Helper: if every event in the list is dated strictly less than one
second after the recorded timestamp, none of them fires and the state is
unchanged. -/
theorem processEvents_none_fire (tf : String) :
    ∀ (evs : List (FsEvent × ℚ × ReadOutcome)) (s : HandlerState),
    (∀ p ∈ evs, p.2.1 < s.lastModified + 1) →
    processEvents tf s evs = (s, evs.map (fun _ => noTrigger)) := by
  intro evs
  induction evs with
  | nil => intro s _; rfl
  | cons a rest ih =>
      intro s h
      obtain ⟨e, now, r⟩ := a
      have h0 : now - s.lastModified < 1 := by
        have := h (e, now, r) (List.mem_cons_self _ _)
        simp at this
        linarith
      have hrest : ∀ p ∈ rest, p.2.1 < s.lastModified + 1 := by
        intro p hp
        exact h p (List.mem_cons_of_mem _ hp)
      simp [processEvents, on_modified_within_window tf s e now r h0, ih s hrest]

/-- Number of fired outputs in a run that fires nothing is zero. -/
theorem firedCount_map_noTrigger {α : Type} (l : List α) :
    firedCount (l.map (fun _ => noTrigger)) = 0 := by
  induction l with
  | nil => rfl
  | cons a rest ih => simpa [firedCount, List.filter_cons, noTrigger] using ih

/-- Helper: a burst — a qualifying event at least one second after the
recorded timestamp, followed by further events all dated inside the same
1-second window `[t0, t0 + 1)` — fires exactly once. -/
theorem processEvents_burst (tf : String) (t0 : ℚ) (s : HandlerState)
    (e : FsEvent) (now : ℚ) (r : ReadOutcome)
    (rest : List (FsEvent × ℚ × ReadOutcome))
    (hs : s.lastModified + 1 ≤ t0)
    (hd : e.isDirectory = false) (hp : e.srcPath = tf)
    (h1 : t0 ≤ now) (h2 : now < t0 + 1)
    (hrest : ∀ p ∈ rest, t0 ≤ p.2.1 ∧ p.2.1 < t0 + 1) :
    firedCount (processEvents tf s ((e, now, r) :: rest)).snd = 1 := by
  have hfire : 1 ≤ now - s.lastModified := by linarith
  have hstep := on_modified_fires tf s e now r hd hp hfire
  have hrest2 : ∀ p ∈ rest, p.2.1 < (HandlerState.mk now).lastModified + 1 := by
    intro p hp2
    have := hrest p hp2
    simp only [HandlerState.mk.injEq]
    have : p.2.1 < t0 + 1 := this.2
    linarith
  have hnone := processEvents_none_fire tf rest (HandlerState.mk now) hrest2
  have hzero := firedCount_map_noTrigger rest
  simp [processEvents, hstep, hnone, firedCount, List.filter_cons] at hzero ⊢
  exact hzero

/-- Helper: qualifying events spaced at least one second apart, the first
at least one second after the recorded timestamp, each fire. -/
theorem processEvents_spaced (tf : String) :
    ∀ (evs : List (FsEvent × ℚ × ReadOutcome)) (s : HandlerState),
    (∀ p ∈ evs, p.1.isDirectory = false ∧ p.1.srcPath = tf) →
    List.Chain' (fun p q => p.2.1 + 1 ≤ q.2.1) evs →
    (∀ p ∈ evs.head?, s.lastModified + 1 ≤ p.2.1) →
    firedCount (processEvents tf s evs).snd = evs.length := by
  intro evs
  induction evs with
  | nil => intro s _ _ _; rfl
  | cons a rest ih =>
      intro s hq hchain hhead
      obtain ⟨e, now, r⟩ := a
      have hqa := hq (e, now, r) (List.mem_cons_self _ _)
      have hfire : 1 ≤ now - s.lastModified := by
        have := hhead (e, now, r) (by simp)
        simp at this
        linarith
      have hstep := on_modified_fires tf s e now r hqa.1 hqa.2 hfire
      rw [List.chain'_cons'] at hchain
      have htail := ih (HandlerState.mk now)
        (fun p hp => hq p (List.mem_cons_of_mem _ hp)) hchain.2
        (by
          intro p hp
          have := hchain.1 p hp
          simpa using this)
      simp [processEvents, hstep, firedCount, List.filter] at htail ⊢
      simpa [firedCount, List.filter] using htail

/-- Claim C3: for every qualifying notification for the target file, if
strictly less than 1 second has elapsed since the last handled
notification the notification is discarded and no trigger is emitted;
otherwise the last-fired timestamp is set to now and exactly one trigger
(file read, then `run_task` on the content) is emitted.  Consequently a
burst of notifications inside one 1-second window emits exactly one
trigger, and notifications spaced at least 1 second apart each emit
their own. -/
theorem debounce_discipline (tasksFile : String) :
    (∀ (s : HandlerState) (e : FsEvent) (now : ℚ) (r : ReadOutcome),
      e.isDirectory = false → e.srcPath = tasksFile →
      (now - s.lastModified < 1 →
        on_modified tasksFile s e now r = (s, noTrigger)) ∧
      (1 ≤ now - s.lastModified →
        on_modified tasksFile s e now r =
          ({ lastModified := now },
           { fired := true, readAttempted := true, ranTask := readContent r }))) ∧
    (∀ (t0 : ℚ) (s : HandlerState) (e : FsEvent) (now : ℚ) (r : ReadOutcome)
        (rest : List (FsEvent × ℚ × ReadOutcome)),
      s.lastModified + 1 ≤ t0 → e.isDirectory = false → e.srcPath = tasksFile →
      t0 ≤ now → now < t0 + 1 →
      (∀ p ∈ rest, t0 ≤ p.2.1 ∧ p.2.1 < t0 + 1) →
      firedCount (processEvents tasksFile s ((e, now, r) :: rest)).snd = 1) ∧
    (∀ (evs : List (FsEvent × ℚ × ReadOutcome)) (s : HandlerState),
      (∀ p ∈ evs, p.1.isDirectory = false ∧ p.1.srcPath = tasksFile) →
      List.Chain' (fun p q => p.2.1 + 1 ≤ q.2.1) evs →
      (∀ p ∈ evs.head?, s.lastModified + 1 ≤ p.2.1) →
      firedCount (processEvents tasksFile s evs).snd = evs.length) := by
  refine ⟨?_, ?_, ?_⟩
  · intro s e now r hd hp
    exact ⟨fun h => on_modified_within_window tasksFile s e now r h,
           fun h => on_modified_fires tasksFile s e now r hd hp h⟩
  · intro t0 s e now r rest hs hd hp h1 h2 hrest
    exact processEvents_burst tasksFile t0 s e now r rest hs hd hp h1 h2 hrest
  · intro evs s hq hchain hhead
    exact processEvents_spaced tasksFile evs s hq hchain hhead

/-- Witness for C3: concrete instances of all three parts — a
notification half a second after the last one is discarded, one 1.5
seconds after fires and stamps the time; a burst of three notifications
inside one second emits one trigger; two notifications 1.5 seconds
apart each emit their own. -/
theorem debounce_discipline_witness :
    on_modified "/w/tasks.txt" { lastModified := 10 }
      { isDirectory := false, srcPath := "/w/tasks.txt" } (21/2)
      (ReadOutcome.ok "do a thing") = ({ lastModified := 10 }, noTrigger) ∧
    on_modified "/w/tasks.txt" { lastModified := 10 }
      { isDirectory := false, srcPath := "/w/tasks.txt" } (23/2)
      (ReadOutcome.ok "do a thing") =
      ({ lastModified := 23/2 },
       { fired := true, readAttempted := true, ranTask := some "do a thing" }) ∧
    firedCount (processEvents "/w/tasks.txt" { lastModified := 0 }
      [({ isDirectory := false, srcPath := "/w/tasks.txt" }, 2, ReadOutcome.ok "hello"),
       ({ isDirectory := false, srcPath := "/w/tasks.txt" }, 23/10, ReadOutcome.ok "hello"),
       ({ isDirectory := false, srcPath := "/w/tasks.txt" }, 29/10,
        ReadOutcome.raises "busy")]).snd = 1 ∧
    firedCount (processEvents "/w/tasks.txt" { lastModified := 1 }
      [({ isDirectory := false, srcPath := "/w/tasks.txt" }, 2, ReadOutcome.ok "a"),
       ({ isDirectory := false, srcPath := "/w/tasks.txt" }, 7/2,
        ReadOutcome.ok "b")]).snd = 2 := by
  refine ⟨?_, ?_, ?_, ?_⟩
  · exact ((debounce_discipline "/w/tasks.txt").1 _ _ _ _ rfl rfl).1 (by norm_num)
  · exact ((debounce_discipline "/w/tasks.txt").1 _ _ _ _ rfl rfl).2 (by norm_num)
  · refine (debounce_discipline "/w/tasks.txt").2.1 2 _ _ _ _ _
      (by norm_num) rfl rfl (by norm_num) (by norm_num) ?_
    intro p hp
    simp only [List.mem_cons, List.not_mem_nil, or_false] at hp
    rcases hp with rfl | rfl
    · norm_num
    · norm_num
  · refine (debounce_discipline "/w/tasks.txt").2.2 _ _ ?_ ?_ ?_
    · intro p hp
      simp only [List.mem_cons, List.not_mem_nil, or_false] at hp
      rcases hp with rfl | rfl <;> exact ⟨rfl, rfl⟩
    · refine List.chain'_cons.mpr ⟨by norm_num, List.chain'_singleton _⟩
    · intro p hp
      simp only [List.head?_cons, Option.mem_def, Option.some.injEq] at hp
      rw [← hp]
      norm_num

/-- Claim C4: a directory notification, or a notification whose resolved
path differs from the watched file, produces nothing: no trigger, no file
read, no `run_task`, and no timestamp update. -/
theorem filtering_no_trigger (tasksFile : String) (s : HandlerState) (e : FsEvent)
    (now : ℚ) (r : ReadOutcome)
    (h : e.isDirectory = true ∨ e.srcPath ≠ tasksFile) :
    on_modified tasksFile s e now r = (s, noTrigger) := by
  rcases h with h | h
  · simp [on_modified, h]
  · by_cases hd : e.isDirectory = true
    · simp [on_modified, hd]
    · simp [on_modified, hd, h]

/-- Witness for C4: a directory event at the watched path and a file
event at a different path are both ignored with the state untouched. -/
theorem filtering_no_trigger_witness :
    on_modified "/w/tasks.txt" { lastModified := 5 }
      { isDirectory := true, srcPath := "/w/tasks.txt" } 100
      (ReadOutcome.ok "x") = ({ lastModified := 5 }, noTrigger) ∧
    on_modified "/w/tasks.txt" { lastModified := 5 }
      { isDirectory := false, srcPath := "/w/other.txt" } 100
      (ReadOutcome.ok "x") = ({ lastModified := 5 }, noTrigger) :=
  ⟨filtering_no_trigger _ _ _ _ _ (Or.inl rfl),
   filtering_no_trigger _ _ _ _ _ (Or.inr (by decide))⟩

/-- Claim C10: the debounce timestamp is updated before the file is read,
so every handled notification — also one whose read fails or returns
empty content — consumes the 1-second window, and a further notification
for the target file within 1 second of it is discarded without a
trigger. -/
theorem debounce_window_consumed (tasksFile : String) (s : HandlerState)
    (e e2 : FsEvent) (now now2 : ℚ) (r r2 : ReadOutcome)
    (hd : e.isDirectory = false) (hp : e.srcPath = tasksFile)
    (hfire : 1 ≤ now - s.lastModified)
    (hlt : now2 - now < 1) :
    (on_modified tasksFile s e now r).fst = { lastModified := now } ∧
    on_modified tasksFile (on_modified tasksFile s e now r).fst e2 now2 r2 =
      ((on_modified tasksFile s e now r).fst, noTrigger) := by
  have h1 := on_modified_fires tasksFile s e now r hd hp hfire
  refine ⟨by rw [h1], ?_⟩
  rw [h1]
  exact on_modified_within_window _ _ _ _ _ hlt

/-- Witness for C10: a handled notification whose file read fails with an
OS error still sets the timestamp, and a second notification 0.9 seconds
later is discarded. -/
theorem debounce_window_consumed_witness :
    (on_modified "/w/tasks.txt" { lastModified := 0 }
      { isDirectory := false, srcPath := "/w/tasks.txt" } 5
      (ReadOutcome.raises "Permission denied")).fst = { lastModified := 5 } ∧
    on_modified "/w/tasks.txt"
      (on_modified "/w/tasks.txt" { lastModified := 0 }
        { isDirectory := false, srcPath := "/w/tasks.txt" } 5
        (ReadOutcome.raises "Permission denied")).fst
      { isDirectory := false, srcPath := "/w/tasks.txt" } (59/10)
      (ReadOutcome.ok "new task") =
      ((on_modified "/w/tasks.txt" { lastModified := 0 }
        { isDirectory := false, srcPath := "/w/tasks.txt" } 5
        (ReadOutcome.raises "Permission denied")).fst, noTrigger) :=
  debounce_window_consumed "/w/tasks.txt" { lastModified := 0 } _ _ 5 (59/10) _ _
    rfl rfl (by norm_num) (by norm_num)

/-- Claim C6: `send_email` attempts a network delivery if and only if a
non-empty host is configured — with an empty host it writes to stdout and
never opens a network connection, and with a non-empty host it always
attempts the connection and writes nothing to stdout. -/
theorem send_email_selection (cfg : SmtpConfig) (net : NetOutcome)
    (subject body : String) :
    (cfg.host = "" →
      (∀ h p, SinkAction.netAttempt h p ∉ (send_email cfg net subject body).fst) ∧
      SinkAction.consoleWrite body ∈ (send_email cfg net subject body).fst) ∧
    (cfg.host ≠ "" →
      SinkAction.netAttempt cfg.host cfg.port ∈ (send_email cfg net subject body).fst ∧
      ∀ l, SinkAction.consoleWrite l ∉ (send_email cfg net subject body).fst) := by
  constructor
  · intro hh
    simp [send_email, hh]
  · intro hh
    rcases net with _ | e
    · simp [send_email, hh]
    · rcases e with m | m | m <;> simp [send_email, hh]

/-- Witness for C6: with an empty host the sink prints the body and opens
no connection; with host smtp.example.com it attempts that connection and
prints nothing. -/
theorem send_email_selection_witness :
    ((∀ h p, SinkAction.netAttempt h p ∉
        (send_email ⟨"", 587, "", "", "", ""⟩ NetOutcome.ok "[Huginn] q" "Paris.").fst) ∧
      SinkAction.consoleWrite "Paris." ∈
        (send_email ⟨"", 587, "", "", "", ""⟩ NetOutcome.ok "[Huginn] q" "Paris.").fst) ∧
    (SinkAction.netAttempt "smtp.example.com" 587 ∈
        (send_email ⟨"smtp.example.com", 587, "u", "pw", "u", "r"⟩ NetOutcome.ok
          "[Huginn] q" "Paris.").fst ∧
      ∀ l, SinkAction.consoleWrite l ∉
        (send_email ⟨"smtp.example.com", 587, "u", "pw", "u", "r"⟩ NetOutcome.ok
          "[Huginn] q" "Paris.").fst) :=
  ⟨(send_email_selection ⟨"", 587, "", "", "", ""⟩ NetOutcome.ok "[Huginn] q" "Paris.").1 rfl,
   (send_email_selection ⟨"smtp.example.com", 587, "u", "pw", "u", "r"⟩ NetOutcome.ok
      "[Huginn] q" "Paris.").2 (by decide)⟩

/-- Counterexample for C7: with the host unconfigured the console output
is independent of the subject — two calls differing only in the subject
print exactly the same lines, and the subject is never among the printed
lines — so the fallback does not write the subject to stdout. -/
theorem fallback_subject_not_written_cex :
    (send_email ⟨"", 587, "", "", "", ""⟩ NetOutcome.ok "SUBJECT-MARKER" "answer").fst =
      (send_email ⟨"", 587, "", "", "", ""⟩ NetOutcome.ok "another subject" "answer").fst ∧
    SinkAction.consoleWrite "SUBJECT-MARKER" ∉
      (send_email ⟨"", 587, "", "", "", ""⟩ NetOutcome.ok "SUBJECT-MARKER" "answer").fst := by
  decide

/-- Claim C7 (amended): while the host is unconfigured the fallback writes
the body (framed by a FINAL ANSWER banner) to the standard output stream;
the subject is not written — the console output does not depend on it. -/
theorem fallback_writes_body_only (cfg : SmtpConfig) (net : NetOutcome)
    (s1 s2 body : String) (h : cfg.host = "") :
    SinkAction.consoleWrite body ∈ (send_email cfg net s1 body).fst ∧
    (send_email cfg net s1 body).fst = (send_email cfg net s2 body).fst := by
  simp [send_email, h]

/-- Witness for C7: a concrete unconfigured-host delivery prints the body,
and changing the subject leaves the output unchanged. -/
theorem fallback_writes_body_only_witness :
    SinkAction.consoleWrite "the answer is 42" ∈
      (send_email ⟨"", 587, "", "", "", ""⟩ NetOutcome.ok "[Huginn] s1"
        "the answer is 42").fst ∧
    (send_email ⟨"", 587, "", "", "", ""⟩ NetOutcome.ok "[Huginn] s1"
        "the answer is 42").fst =
      (send_email ⟨"", 587, "", "", "", ""⟩ NetOutcome.ok "[Huginn] s2"
        "the answer is 42").fst :=
  fallback_writes_body_only ⟨"", 587, "", "", "", ""⟩ NetOutcome.ok
    "[Huginn] s1" "[Huginn] s2" "the answer is 42" rfl

/-- Claim C8: an SMTP-level failure and a connectivity (OS) failure during
network delivery are each caught by `send_email`: each produces its own
distinct error log and the function returns normally — the exception
never escapes to the caller. -/
theorem send_email_error_containment (cfg : SmtpConfig) (m subject body : String)
    (h : cfg.host ≠ "") :
    ((send_email cfg (NetOutcome.raises (PyExc.smtpException m)) subject body).snd = none ∧
      SinkAction.logError ("SMTP error while sending email: " ++ m) ∈
        (send_email cfg (NetOutcome.raises (PyExc.smtpException m)) subject body).fst) ∧
    ((send_email cfg (NetOutcome.raises (PyExc.osError m)) subject body).snd = none ∧
      SinkAction.logError ("Network error while sending email: " ++ m) ∈
        (send_email cfg (NetOutcome.raises (PyExc.osError m)) subject body).fst) ∧
    ("SMTP error while sending email: " ++ m) ≠
      ("Network error while sending email: " ++ m) := by
  refine ⟨by simp [send_email, h], by simp [send_email, h], ?_⟩
  intro heq
  have hlen := congrArg String.length heq
  simp [String.length_append] at hlen
  exact absurd hlen (by decide)

/-- Witness for C8: a concrete authentication failure and a concrete
connection failure are both contained, each with its own error log. -/
theorem send_email_error_containment_witness :
    ((send_email ⟨"smtp.example.com", 587, "u", "pw", "u", "r"⟩
        (NetOutcome.raises (PyExc.smtpException "535 auth failed"))
        "[Huginn] q" "Paris.").snd = none ∧
      SinkAction.logError ("SMTP error while sending email: " ++ "535 auth failed") ∈
        (send_email ⟨"smtp.example.com", 587, "u", "pw", "u", "r"⟩
          (NetOutcome.raises (PyExc.smtpException "535 auth failed"))
          "[Huginn] q" "Paris.").fst) ∧
    ((send_email ⟨"smtp.example.com", 587, "u", "pw", "u", "r"⟩
        (NetOutcome.raises (PyExc.osError "535 auth failed"))
        "[Huginn] q" "Paris.").snd = none ∧
      SinkAction.logError ("Network error while sending email: " ++ "535 auth failed") ∈
        (send_email ⟨"smtp.example.com", 587, "u", "pw", "u", "r"⟩
          (NetOutcome.raises (PyExc.osError "535 auth failed"))
          "[Huginn] q" "Paris.").fst) ∧
    ("SMTP error while sending email: " ++ "535 auth failed") ≠
      ("Network error while sending email: " ++ "535 auth failed") :=
  send_email_error_containment ⟨"smtp.example.com", 587, "u", "pw", "u", "r"⟩
    "535 auth failed" "[Huginn] q" "Paris." (by decide)

/-- Claim C5: a trigger whose file content is empty or whitespace-only is
a no-op: the agent is never invoked, `send_email` is never called, and
`run_task` returns normally. -/
theorem run_task_empty_noop (cfg : SmtpConfig) (net : NetOutcome)
    (agent : AgentOutcome) (task_text : String) (h : pyStrip task_text = "") :
    run_task cfg net agent task_text =
      { invoked := false, sends := [], actions := [],
        logs := ["tasks.txt is empty – nothing to do."], raised := none } := by
  simp [run_task, h]

/-- Witness for C5: a whitespace-only file content produces no agent
invocation and no delivery. -/
theorem run_task_empty_noop_witness :
    run_task ⟨"smtp.example.com", 587, "u", "pw", "u", "r"⟩ NetOutcome.ok
      (AgentOutcome.ok [{ contentAttr := some "x", strRepr := "x" }]) "  \n\t  " =
      { invoked := false, sends := [], actions := [],
        logs := ["tasks.txt is empty – nothing to do."], raised := none } :=
  run_task_empty_noop ⟨"smtp.example.com", 587, "u", "pw", "u", "r"⟩ NetOutcome.ok
    (AgentOutcome.ok [{ contentAttr := some "x", strRepr := "x" }]) "  \n\t  "
    (by decide)

/-- Claim C9: for every non-empty task whose loop completes, the delivery
subject is "[Huginn] " followed by the first 60 characters of the
stripped task text, with an ellipsis appended exactly when the stripped
text exceeds 60 characters, so the subject length is at most 70
characters regardless of the task length. -/
theorem run_task_subject_bounded (cfg : SmtpConfig) (net : NetOutcome)
    (msgs : List Msg) (m : Msg) (task_text : String)
    (hne : pyStrip task_text ≠ "") (hlast : msgs.getLast? = some m) :
    (run_task cfg net (AgentOutcome.ok msgs) task_text).sends =
      [("[Huginn] " ++ shortTask (pyStrip task_text), finalAnswerOf m)] ∧
    (shortTask (pyStrip task_text)).toList =
      (pyStrip task_text).toList.take 60 ++
        (if 60 < (pyStrip task_text).toList.length then ['…'] else []) ∧
    ∀ p ∈ (run_task cfg net (AgentOutcome.ok msgs) task_text).sends,
      p.fst.length ≤ 70 := by
  have hsends : (run_task cfg net (AgentOutcome.ok msgs) task_text).sends =
      [("[Huginn] " ++ shortTask (pyStrip task_text), finalAnswerOf m)] := by
    simp [run_task, hne, hlast]
  have hshort : ∀ s : String, (shortTask s).toList =
      s.toList.take 60 ++ (if 60 < s.toList.length then ['…'] else []) := by
    intro s
    unfold shortTask
    by_cases h : 60 < s.toList.length
    · rw [if_pos h, if_pos h]
      rfl
    · rw [if_neg h, if_neg h]
      rfl
  have hlen : ∀ s : String, ("[Huginn] " ++ shortTask s).length ≤ 70 := by
    intro s
    rw [String.length_append]
    have h1 : ("[Huginn] " : String).length = 9 := by decide
    have h2 : (shortTask s).length ≤ 61 := by
      have hts := hshort s
      have hl : (shortTask s).length = (shortTask s).toList.length := rfl
      rw [hl, hts, List.length_append, List.length_take]
      have hmin : min 60 s.toList.length ≤ 60 := Nat.min_le_left _ _
      by_cases h : 60 < s.toList.length
      · rw [if_pos h]
        simp only [List.length_cons, List.length_nil]
        omega
      · rw [if_neg h]
        simp only [List.length_nil]
        omega
    omega
  refine ⟨hsends, hshort _, ?_⟩
  intro p hp
  rw [hsends, List.mem_singleton] at hp
  rw [hp]
  exact hlen _

/-- Witness for C9: a 65-character task yields the subject built from its
first 60 characters plus an ellipsis, with length at most 70. -/
theorem run_task_subject_bounded_witness :
    (run_task ⟨"", 587, "", "", "", ""⟩ NetOutcome.ok
        (AgentOutcome.ok [{ contentAttr := some "Paris.", strRepr := "r" }])
        (String.mk (List.replicate 65 'a'))).sends =
      [("[Huginn] " ++ shortTask (pyStrip (String.mk (List.replicate 65 'a'))),
        finalAnswerOf { contentAttr := some "Paris.", strRepr := "r" })] ∧
    (shortTask (pyStrip (String.mk (List.replicate 65 'a')))).toList =
      (pyStrip (String.mk (List.replicate 65 'a'))).toList.take 60 ++
        (if 60 < (pyStrip (String.mk (List.replicate 65 'a'))).toList.length
          then ['…'] else []) ∧
    ∀ p ∈ (run_task ⟨"", 587, "", "", "", ""⟩ NetOutcome.ok
        (AgentOutcome.ok [{ contentAttr := some "Paris.", strRepr := "r" }])
        (String.mk (List.replicate 65 'a'))).sends,
      p.fst.length ≤ 70 :=
  run_task_subject_bounded ⟨"", 587, "", "", "", ""⟩ NetOutcome.ok
    [{ contentAttr := some "Paris.", strRepr := "r" }]
    { contentAttr := some "Paris.", strRepr := "r" }
    (String.mk (List.replicate 65 'a')) (by decide) rfl

/-- Claim C1 (amended): if the agent invocation raises an unrecoverable
error, `run_task` catches it, logs it, and returns normally without
calling `send_email` — no failure notice is delivered. -/
theorem run_task_agent_error_no_delivery (cfg : SmtpConfig) (net : NetOutcome)
    (err task_text : String) (h : pyStrip task_text ≠ "") :
    run_task cfg net (AgentOutcome.raises err) task_text =
      { invoked := true, sends := [], actions := [],
        logs := ["Starting agent for task:\n  " ++
                   String.mk ((pyStrip task_text).toList.take 200),
                 "Agent raised an unexpected error: " ++ err],
        raised := none } := by
  simp [run_task, h]

/-- Counterexample for C1: on a concrete task whose agent invocation
raises, `run_task` performs no delivery at all — `send_email` is never
called, so no failure notice with a descriptive body is produced. -/
theorem run_task_agent_error_cex :
    (run_task ⟨"smtp.example.com", 587, "u", "pw", "u", "r"⟩ NetOutcome.ok
      (AgentOutcome.raises "model service unavailable")
      "summarise the news").sends = [] ∧
    (run_task ⟨"smtp.example.com", 587, "u", "pw", "u", "r"⟩ NetOutcome.ok
      (AgentOutcome.raises "model service unavailable")
      "summarise the news").actions = [] := by
  decide

/-- Witness for C1 (amended): a concrete raising run returns normally with
the error logged and nothing sent. -/
theorem run_task_agent_error_no_delivery_witness :
    run_task ⟨"", 587, "", "", "", ""⟩ NetOutcome.ok
      (AgentOutcome.raises "boom") "fetch the weather" =
      { invoked := true, sends := [], actions := [],
        logs := ["Starting agent for task:\n  " ++
                   String.mk ((pyStrip "fetch the weather").toList.take 200),
                 "Agent raised an unexpected error: " ++ "boom"],
        raised := none } :=
  run_task_agent_error_no_delivery ⟨"", 587, "", "", "", ""⟩ NetOutcome.ok
    "boom" "fetch the weather" (by decide)

/-- Claim C2 (amended): `run_task` contains no iteration-limit handling:
when the recursion limit makes the agent invocation raise
(GraphRecursionError), nothing is delivered at all, and every delivered
body is verbatim the final message content of a successful invocation
under the standard subject — no synthetic iteration-limit message and no
incomplete marking exist. -/
theorem run_task_no_limit_handling (cfg : SmtpConfig) (net : NetOutcome)
    (agent : AgentOutcome) (task_text : String) :
    (∀ e, agent = AgentOutcome.raises e →
      (run_task cfg net agent task_text).sends = []) ∧
    (∀ p ∈ (run_task cfg net agent task_text).sends,
      ∃ msgs m, agent = AgentOutcome.ok msgs ∧ msgs.getLast? = some m ∧
        p.snd = finalAnswerOf m ∧
        p.fst = "[Huginn] " ++ shortTask (pyStrip task_text)) := by
  by_cases ht : pyStrip task_text = ""
  · constructor
    · intro e he
      simp [run_task, ht]
    · intro p hp
      simp [run_task, ht] at hp
  · rcases agent with msgs | e
    · constructor
      · intro e he
        cases he
      · intro p hp
        cases hl : msgs.getLast? with
        | none => simp [run_task, ht, hl] at hp
        | some m =>
            have hs2 : (run_task cfg net (AgentOutcome.ok msgs) task_text).sends =
                [("[Huginn] " ++ shortTask (pyStrip task_text), finalAnswerOf m)] := by
              simp [run_task, ht, hl]
            rw [hs2, List.mem_singleton] at hp
            exact ⟨msgs, m, rfl, hl, by rw [hp], by rw [hp]⟩
    · constructor
      · intro e2 he
        simp [run_task, ht]
      · intro p hp
        simp [run_task, ht] at hp

/-- Counterexample for C2: when the recursion limit is exceeded, the agent
invocation raises GraphRecursionError; on a concrete such run `run_task`
delivers nothing — the result is not delivered, neither marked incomplete
nor otherwise. -/
theorem run_task_iteration_limit_cex :
    (run_task ⟨"smtp.example.com", 587, "u", "pw", "u", "r"⟩ NetOutcome.ok
      (AgentOutcome.raises
        "GraphRecursionError: Recursion limit of 30 reached without hitting a stop condition.")
      "investigate this topic exhaustively").sends = [] := by
  decide

/-- Witness for C2 (amended): a concrete limit-exceeded run delivers
nothing. -/
theorem run_task_no_limit_handling_witness :
    (run_task ⟨"", 587, "", "", "", ""⟩ NetOutcome.ok
      (AgentOutcome.raises "GraphRecursionError: Recursion limit of 30 reached")
      "research the problem").sends = [] :=
  (run_task_no_limit_handling ⟨"", 587, "", "", "", ""⟩ NetOutcome.ok
    (AgentOutcome.raises "GraphRecursionError: Recursion limit of 30 reached")
    "research the problem").1 _ rfl
